import Mathlib

/-!
# The frontend API client (`frontend-integration/apiClient.js`)

A shallow embedding of the module: the resolution of `API_BASE_URL` from the
two environment objects, the `axios.create` call that builds the singleton
`api`, and the six endpoint functions, each of which makes one call on `api`.

JavaScript values are embedded as `JSVal`.  An exception raised while the
module body is evaluated is an `Except.error`; the value returned by an HTTP
call (a promise in the source) is an arbitrary type `τ` chosen by the
transport that the axios instance is built on.
-/

namespace ApiClient

/-! ## JavaScript values -/

/-- Primitive JavaScript values.  A Number is identified by the text that
`Number.prototype.toString` gives for it (so `+0` and `-0` coincide: no
operation of the module tells them apart).  Symbols and BigInts are outside
the model. -/
inductive JSPrim where
  | undefined
  | null
  | bool (b : Bool)
  | num (text : String)
  | str (s : String)
deriving DecidableEq, Repr

/-- JavaScript values: a primitive, or a plain data object given by its own
enumerable properties in insertion order.  Functions, arrays and objects with
accessors are outside the model. -/
inductive JSVal where
  | prim (p : JSPrim)
  | obj (fields : List (String × JSVal))

/-- The value `undefined`. -/
def JSVal.undefined : JSVal := .prim .undefined

/-- A string value. -/
def JSVal.str (s : String) : JSVal := .prim (.str s)

/-- Errors thrown by the evaluation of an expression. -/
inductive JSError where
  | ReferenceError
  | TypeError
deriving DecidableEq, Repr

/-- ToBoolean on primitives: `undefined`, `null`, `false`, `0`, `NaN` and the
empty string are falsy. -/
def JSPrim.truthy : JSPrim → Bool
  | .undefined => false
  | .null => false
  | .bool b => b
  | .num text => text != "0" && text != "NaN"
  | .str s => s != ""

/-- ToBoolean: every object is truthy. -/
def JSVal.truthy : JSVal → Bool
  | .prim p => p.truthy
  | .obj _ => true

/-- ToString on primitives, as performed by a template literal. -/
def JSPrim.toStr : JSPrim → String
  | .undefined => "undefined"
  | .null => "null"
  | .bool true => "true"
  | .bool false => "false"
  | .num text => text
  | .str s => s

/-- Whether a value is `undefined` or `null`. -/
def JSVal.isNullish : JSVal → Bool
  | .prim .undefined => true
  | .prim .null => true
  | _ => false

/-- Property read `v.key`: a TypeError on `undefined` and `null`, the own
property of an object (`undefined` when it has none of that name), and
`undefined` on the other primitives (none of the property names read by the
module is defined on a primitive wrapper prototype). -/
def getProp (v : JSVal) (key : String) : Except JSError JSVal :=
  match v with
  | .prim .undefined => .error .TypeError
  | .prim .null => .error .TypeError
  | .prim _ => .ok .undefined
  | .obj fields => .ok ((fields.lookup key).getD .undefined)

/-- Optional chaining `v?.key`: `undefined` when `v` is nullish, the property
read otherwise. -/
def optChain (v : JSVal) (key : String) : Except JSError JSVal :=
  if v.isNullish then .ok .undefined else getProp v key

/-! ## The environment and `API_BASE_URL` -/

/-- What the module body can observe of its environment: the object
`import.meta`, and the global binding `process` (`none` when the identifier is
not declared, as in a browser without a polyfill). -/
structure Env where
  importMeta : JSVal
  process : Option JSVal

/-- Evaluation of the identifier `process`: a ReferenceError when it is not
declared. -/
def Env.processRef (env : Env) : Except JSError JSVal :=
  match env.process with
  | none => .error .ReferenceError
  | some p => .ok p

/-- The literal at the end of the `||` chain. -/
def fallbackBaseURL : String := "http://127.0.0.1:8000/api"

/-- The operand `import.meta?.env?.VITE_API_BASE_URL`. -/
def buildTimeVar (env : Env) : Except JSError JSVal :=
  (optChain env.importMeta "env").bind fun e => optChain e "VITE_API_BASE_URL"

/-- The operand `process.env.REACT_APP_API_BASE_URL`. -/
def runtimeVar (env : Env) : Except JSError JSVal :=
  env.processRef.bind fun p =>
    (getProp p "env").bind fun e => getProp e "REACT_APP_API_BASE_URL"

/-- The constant `API_BASE_URL`:
`import.meta?.env?.VITE_API_BASE_URL || process.env.REACT_APP_API_BASE_URL
|| "http://127.0.0.1:8000/api"`.  The operator `||` yields its left operand
when that is truthy and evaluates its right operand only otherwise. -/
def API_BASE_URL (env : Env) : Except JSError JSVal :=
  (buildTimeVar env).bind fun a =>
    if a.truthy then .ok a
    else (runtimeVar env).bind fun b =>
      if b.truthy then .ok b
      else .ok (.str fallbackBaseURL)

/-! ## The axios instance -/

/-- HTTP methods used by the module. -/
inductive Method where
  | GET
  | POST
deriving DecidableEq, Repr

/-- The per-request configuration object passed as last argument of
`api.get` / `api.post`; the module only ever sets `headers`. -/
structure RequestConfig where
  headers : List (String × String)
deriving DecidableEq, Repr

/-- One call made on the axios instance: the method of the helper called, the
path, the data argument (`none` for `get`, which takes none) and the
per-request configuration (`none` when the argument is omitted). -/
structure Request where
  method : Method
  url : String
  data : Option JSVal
  config : Option RequestConfig

/-- The argument of `axios.create`. -/
structure AxiosDefaults where
  baseURL : JSVal
  timeout : Nat
  headers : List (String × String)

/-- An axios instance: its defaults and the transport behind it, which maps a
request to the value the call returns (type `τ`, a promise in the source). -/
structure AxiosInstance (τ : Type) where
  defaults : AxiosDefaults
  request : Request → τ

/-- The helper `instance.post(url, data, config)`. -/
def AxiosInstance.post {τ : Type} (inst : AxiosInstance τ) (url : String) (data : JSVal)
    (config : Option RequestConfig) : τ :=
  inst.request { method := .POST, url := url, data := some data, config := config }

/-- The helper `instance.get(url, config)`. -/
def AxiosInstance.get {τ : Type} (inst : AxiosInstance τ) (url : String)
    (config : Option RequestConfig) : τ :=
  inst.request { method := .GET, url := url, data := none, config := config }

/-- The exported singleton `api = axios.create(...)`, over a given transport.
Evaluating it evaluates `API_BASE_URL`. -/
def api {τ : Type} (env : Env) (transport : Request → τ) : Except JSError (AxiosInstance τ) :=
  (API_BASE_URL env).bind fun base =>
    .ok { defaults := { baseURL := base, timeout := 15000,
                        headers := [("Content-Type", "application/json")] },
          request := transport }

/-! ## The endpoint functions -/

/-- The header object built with the template literal for a bearer token. -/
def bearerConfig (token : JSPrim) : RequestConfig :=
  { headers := [("Authorization", "Bearer " ++ token.toStr)] }

/-- Source: `requestOtp = (phone_number) => api.post(path, { phone_number })`. -/
def requestOtp {τ : Type} (api : AxiosInstance τ) (phone_number : JSVal) : τ :=
  api.post "/client/auth/request-otp/" (.obj [("phone_number", phone_number)]) none

/-- Source: `verifyOtp = (phone_number, otp) => api.post(path, { phone_number, otp })`. -/
def verifyOtp {τ : Type} (api : AxiosInstance τ) (phone_number otp : JSVal) : τ :=
  api.post "/client/auth/verify-otp/" (.obj [("phone_number", phone_number), ("otp", otp)]) none

/-- Source: `applyLoan = (token, payload) => api.post(path, payload, config)`. -/
def applyLoan {τ : Type} (api : AxiosInstance τ) (token : JSPrim) (payload : JSVal) : τ :=
  api.post "/client/loans/apply/" payload (some (bearerConfig token))

/-- Source: `getLoanSummary = (token) => api.get(path, config)`. -/
def getLoanSummary {τ : Type} (api : AxiosInstance τ) (token : JSPrim) : τ :=
  api.get "/client/loans/summary/" (some (bearerConfig token))

/-- Source: `getPaymentHistory = (token) => api.get(path, config)`. -/
def getPaymentHistory {τ : Type} (api : AxiosInstance τ) (token : JSPrim) : τ :=
  api.get "/client/payments/history/" (some (bearerConfig token))

/-- Source: `triggerStkPush = (payload) => api.post(path, payload)`. -/
def triggerStkPush {τ : Type} (api : AxiosInstance τ) (payload : JSVal) : τ :=
  api.post "/mpesa/stk-push/" payload none

/-! ## Transports used to state the properties -/

/-- The instance whose transport hands back the request it is given, so that
an endpoint function called on it returns the request it builds. -/
def capture (d : AxiosDefaults) : AxiosInstance Request :=
  { defaults := d, request := fun r => r }

/-- A call over a logged transport: from the log of the requests sent so far
to the outcome of the call and the log afterwards. -/
def Logged (ε ρ : Type) : Type := List Request → Except ε ρ × List Request

/-- The instance over a transport `t` given as a function from a request to a
success-or-error outcome, recording every request handed to the transport. -/
def logging {ε ρ : Type} (d : AxiosDefaults) (t : Request → Except ε ρ) :
    AxiosInstance (Logged ε ρ) :=
  { defaults := d, request := fun r log => (t r, log ++ [r]) }

/-- The defaults that `api` gets when the base URL is the fallback literal. -/
def localDefaults : AxiosDefaults :=
  { baseURL := .str fallbackBaseURL, timeout := 15000,
    headers := [("Content-Type", "application/json")] }

/-- The per-request headers of a request (none when no configuration object
is passed). -/
def Request.headers (r : Request) : List (String × String) :=
  match r.config with
  | none => []
  | some c => c.headers

/-- The value of the per-request header `Authorization`, if one is attached. -/
def Request.authorization (r : Request) : Option String :=
  r.headers.lookup "Authorization"

/-- An environment in which both environment objects exist and hold the two
variables with the given values (`undefined` for an unset variable). -/
def envWith (vite runtime : JSVal) : Env :=
  { importMeta := .obj [("env", .obj [("VITE_API_BASE_URL", vite)])],
    process := some (.obj [("env", .obj [("REACT_APP_API_BASE_URL", runtime)])]) }

/-- A browser environment served without a bundler shim: `import.meta` has no
`env` property and the identifier `process` is not declared. -/
def bareBrowserEnv : Env :=
  { importMeta := .obj [], process := none }

/-- A bundled browser environment whose build-time variable is set to the
empty string and in which the identifier `process` is not declared. -/
def emptyViteNoProcessEnv : Env :=
  { importMeta := .obj [("env", .obj [("VITE_API_BASE_URL", .str "")])],
    process := none }

/-! ## General facts -/

/-- The build-time operand never throws: both property reads are optional. -/
theorem buildTimeVar_ok (env : Env) : ∃ a, buildTimeVar env = .ok a := by
  unfold buildTimeVar optChain
  cases h : env.importMeta with
  | prim p =>
    cases p <;> simp [JSVal.isNullish, getProp, Except.bind, JSVal.undefined]
  | obj fields =>
    simp only [JSVal.isNullish, getProp, Except.bind]
    cases (List.lookup "env" fields).getD JSVal.undefined with
    | prim q => cases q <;> simp [JSVal.isNullish, JSVal.undefined]
    | obj fs => simp [JSVal.isNullish]

/-- The fallback literal is not the empty string. -/
theorem fallbackBaseURL_ne_empty : fallbackBaseURL ≠ "" := by decide

/-- A truthy value is not the empty string. -/
theorem truthy_ne_empty (v : JSVal) (h : v.truthy = true) : v ≠ .str "" := by
  intro hv
  subst hv
  simp [JSVal.str, JSVal.truthy, JSPrim.truthy] at h

/-- Every endpoint function hands the transport the request it builds:
calling it on any instance is calling the transport on what `capture`
returns. -/
theorem endpoints_factor {τ : Type} (inst : AxiosInstance τ) (token : JSPrim)
    (p o payload : JSVal) :
    requestOtp inst p = inst.request (requestOtp (capture inst.defaults) p) ∧
    verifyOtp inst p o = inst.request (verifyOtp (capture inst.defaults) p o) ∧
    applyLoan inst token payload
      = inst.request (applyLoan (capture inst.defaults) token payload) ∧
    getLoanSummary inst token = inst.request (getLoanSummary (capture inst.defaults) token) ∧
    getPaymentHistory inst token
      = inst.request (getPaymentHistory (capture inst.defaults) token) ∧
    triggerStkPush inst payload = inst.request (triggerStkPush (capture inst.defaults) payload) :=
  ⟨rfl, rfl, rfl, rfl, rfl, rfl⟩

/-- When the module body evaluates, the instance `api` has the resolved base
URL, the timeout of 15000 ms and the single default header Content-Type. -/
theorem api_defaults {τ : Type} (env : Env) (t : Request → τ) (inst : AxiosInstance τ)
    (h : api env t = .ok inst) :
    API_BASE_URL env = .ok inst.defaults.baseURL ∧ inst.defaults.timeout = 15000 ∧
    inst.defaults.headers = [("Content-Type", "application/json")] ∧
    inst.request = t := by
  unfold api at h
  cases hb : API_BASE_URL env with
  | error e => simp [hb, Except.bind] at h
  | ok base =>
    simp only [hb, Except.bind, Except.ok.injEq] at h
    subst h
    exact ⟨rfl, rfl, rfl, rfl⟩

/-! ## C1: method and path of every endpoint -/

/-- C1: each of the six endpoint functions builds a request with the documented
method and path, whatever the arguments (and whatever the instance defaults). -/
theorem endpoint_method_and_path (d : AxiosDefaults) (token : JSPrim) (p o payload : JSVal) :
    ((requestOtp (capture d) p).method = .POST ∧
      (requestOtp (capture d) p).url = "/client/auth/request-otp/") ∧
    ((verifyOtp (capture d) p o).method = .POST ∧
      (verifyOtp (capture d) p o).url = "/client/auth/verify-otp/") ∧
    ((applyLoan (capture d) token payload).method = .POST ∧
      (applyLoan (capture d) token payload).url = "/client/loans/apply/") ∧
    ((getLoanSummary (capture d) token).method = .GET ∧
      (getLoanSummary (capture d) token).url = "/client/loans/summary/") ∧
    ((getPaymentHistory (capture d) token).method = .GET ∧
      (getPaymentHistory (capture d) token).url = "/client/payments/history/") ∧
    ((triggerStkPush (capture d) payload).method = .POST ∧
      (triggerStkPush (capture d) payload).url = "/mpesa/stk-push/") :=
  ⟨⟨rfl, rfl⟩, ⟨rfl, rfl⟩, ⟨rfl, rfl⟩, ⟨rfl, rfl⟩, ⟨rfl, rfl⟩, ⟨rfl, rfl⟩⟩

/-! ## C2: the Authorization header of the authenticated endpoints -/

/-- C2, refuted as stated: called with no token (`undefined`), each of
`applyLoan`, `getLoanSummary` and `getPaymentHistory` still attaches an
Authorization header, whose value is the text "Bearer undefined". -/
theorem authorization_attached_without_token :
    (applyLoan (capture localDefaults) .undefined (.obj [])).authorization
      = some "Bearer undefined" ∧
    (getLoanSummary (capture localDefaults) .undefined).authorization
      = some "Bearer undefined" ∧
    (getPaymentHistory (capture localDefaults) .undefined).authorization
      = some "Bearer undefined" ∧
    ¬ (∀ token : JSPrim, token = .undefined →
        (getLoanSummary (capture localDefaults) token).authorization = none) := by
  refine ⟨by decide, by decide, by decide, ?_⟩
  intro h
  have h0 := h .undefined rfl
  revert h0
  decide

/-- C2, amended: for every token, each of `applyLoan`, `getLoanSummary` and
`getPaymentHistory` attaches exactly one per-request header, Authorization,
whose value is "Bearer " followed by the string conversion of the token; it is
"Bearer s" for a string token `s` and "Bearer undefined" for an absent one.
The header is attached unconditionally. -/
theorem authorization_always_attached (d : AxiosDefaults) (token : JSPrim) (payload : JSVal)
    (s : String) :
    ((applyLoan (capture d) token payload).headers
        = [("Authorization", "Bearer " ++ token.toStr)] ∧
      (getLoanSummary (capture d) token).headers
        = [("Authorization", "Bearer " ++ token.toStr)] ∧
      (getPaymentHistory (capture d) token).headers
        = [("Authorization", "Bearer " ++ token.toStr)]) ∧
    ((applyLoan (capture d) (.str s) payload).authorization = some ("Bearer " ++ s) ∧
      (getLoanSummary (capture d) (.str s)).authorization = some ("Bearer " ++ s) ∧
      (getPaymentHistory (capture d) (.str s)).authorization = some ("Bearer " ++ s)) ∧
    ((applyLoan (capture d) .undefined payload).authorization = some "Bearer undefined" ∧
      (getLoanSummary (capture d) .undefined).authorization = some "Bearer undefined" ∧
      (getPaymentHistory (capture d) .undefined).authorization = some "Bearer undefined") := by
  refine ⟨⟨rfl, rfl, rfl⟩, ⟨?_, ?_, ?_⟩, ⟨?_, ?_, ?_⟩⟩ <;>
    simp [Request.authorization, Request.headers, applyLoan, getLoanSummary, getPaymentHistory,
      AxiosInstance.post, AxiosInstance.get, capture, bearerConfig, JSPrim.toStr, List.lookup]

/-! ## C3: priority order of the base URL resolution -/

/-- C3, refuted as stated: with the build-time variable set to the empty
string and the runtime variable set to an address, the base URL is the runtime
address, not the (empty) value of the build-time variable. -/
theorem empty_build_time_var_not_used :
    buildTimeVar (envWith (.str "") (.str "https://api.example.com")) = .ok (.str "") ∧
    API_BASE_URL (envWith (.str "") (.str "https://api.example.com"))
      = .ok (.str "https://api.example.com") ∧
    API_BASE_URL (envWith (.str "") (.str "https://api.example.com")) ≠ .ok (.str "") := by
  refine ⟨rfl, rfl, ?_⟩
  intro h
  have h2 : API_BASE_URL (envWith (.str "") (.str "https://api.example.com"))
      = .ok (.str "https://api.example.com") := rfl
  rw [h2] at h
  simp [JSVal.str] at h

/-- C3, amended: if the build-time variable holds a truthy value (a non-empty
string) the base URL is that value, whatever the runtime environment; otherwise,
when `process.env` can be read, the base URL is the runtime variable if that
holds a truthy value (a non-empty string) and the fallback literal if not. -/
theorem base_url_priority (env : Env) :
    (∀ a, buildTimeVar env = .ok a → a.truthy = true → API_BASE_URL env = .ok a) ∧
    (∀ a b, buildTimeVar env = .ok a → a.truthy = false → runtimeVar env = .ok b →
      b.truthy = true → API_BASE_URL env = .ok b) ∧
    (∀ a b, buildTimeVar env = .ok a → a.truthy = false → runtimeVar env = .ok b →
      b.truthy = false → API_BASE_URL env = .ok (.str fallbackBaseURL)) := by
  refine ⟨?_, ?_, ?_⟩
  · intro a ha hta
    simp [API_BASE_URL, ha, Except.bind, hta]
  · intro a b ha hta hb htb
    simp [API_BASE_URL, ha, hb, Except.bind, hta, htb]
  · intro a b ha hta hb htb
    simp [API_BASE_URL, ha, hb, Except.bind, hta, htb]

/-- Witness of `base_url_priority`: one environment for each of the three
branches; in the first the identifier `process` is not even declared. -/
theorem base_url_priority_witness :
    API_BASE_URL { importMeta := .obj [("env", .obj [("VITE_API_BASE_URL", .str "https://a.example")])],
                   process := none } = .ok (.str "https://a.example") ∧
    API_BASE_URL (envWith .undefined (.str "https://b.example")) = .ok (.str "https://b.example") ∧
    API_BASE_URL (envWith .undefined .undefined) = .ok (.str "http://127.0.0.1:8000/api") :=
  ⟨(base_url_priority _).1 (.str "https://a.example") rfl rfl,
   (base_url_priority _).2.1 .undefined (.str "https://b.example") rfl rfl rfl rfl,
   (base_url_priority _).2.2 .undefined .undefined rfl rfl rfl rfl⟩

/-! ## C9: resolution when an environment object is absent -/

/-- C9, evaluated where it fails: with no `import.meta.env` and no declared
`process`, neither variable provides a value, and the evaluation of
`API_BASE_URL` (hence of `api`) throws a ReferenceError instead of yielding
the fallback literal, and so it does when `import.meta.env` exists without the
variable; with `process` declared but without an `env` property it throws a
TypeError.  The absence of `import.meta.env` alone is harmless. -/
theorem base_url_throws_without_process :
    buildTimeVar bareBrowserEnv = .ok .undefined ∧
    runtimeVar bareBrowserEnv = .error .ReferenceError ∧
    API_BASE_URL bareBrowserEnv = .error .ReferenceError ∧
    (api bareBrowserEnv (fun r => r)).toOption.isNone = true ∧
    API_BASE_URL { importMeta := .obj [("env", .obj [("MODE", .str "development")])],
                   process := none } = .error .ReferenceError ∧
    API_BASE_URL { importMeta := .obj [], process := some (.obj []) } = .error .TypeError ∧
    API_BASE_URL { importMeta := .obj [], process := some (.obj [("env", .obj [])]) }
      = .ok (.str "http://127.0.0.1:8000/api") :=
  ⟨rfl, rfl, rfl, rfl, rfl, rfl, rfl⟩

/-! ## C10: the empty string counts as unset -/

/-- C10, refuted as stated: with the build-time variable set to the empty
string and the runtime variable unset because the identifier `process` is not
declared, the runtime operand is consulted and throws a ReferenceError, so the
base URL is not the fallback literal. -/
theorem empty_build_time_var_without_process :
    buildTimeVar emptyViteNoProcessEnv = .ok (.str "") ∧
    runtimeVar emptyViteNoProcessEnv = .error .ReferenceError ∧
    API_BASE_URL emptyViteNoProcessEnv = .error .ReferenceError ∧
    API_BASE_URL emptyViteNoProcessEnv ≠ .ok (.str "http://127.0.0.1:8000/api") := by
  refine ⟨rfl, rfl, rfl, ?_⟩
  intro h
  have h2 : API_BASE_URL emptyViteNoProcessEnv = .error .ReferenceError := rfl
  rw [h2] at h
  cases h

/-- C10, amended: a variable holding the empty string is treated as an unset
one.  If the build-time variable is empty or unset, the base URL is decided by
the runtime operand alone; if moreover `process.env` can be read and the
runtime variable is empty or unset, the base URL is the fallback literal; and
in no environment is the resolved base URL the empty string. -/
theorem empty_string_counts_as_unset (env : Env) :
    ((buildTimeVar env = .ok (.str "") ∨ buildTimeVar env = .ok .undefined) →
      API_BASE_URL env = (runtimeVar env).bind fun b =>
        if b.truthy then .ok b else .ok (.str fallbackBaseURL)) ∧
    ((buildTimeVar env = .ok (.str "") ∨ buildTimeVar env = .ok .undefined) →
      (runtimeVar env = .ok (.str "") ∨ runtimeVar env = .ok .undefined) →
      API_BASE_URL env = .ok (.str "http://127.0.0.1:8000/api")) ∧
    API_BASE_URL env ≠ .ok (.str "") := by
  refine ⟨?_, ?_, ?_⟩
  · rintro (ha | ha) <;>
      simp [API_BASE_URL, ha, Except.bind, JSVal.str, JSVal.undefined, JSVal.truthy,
        JSPrim.truthy]
  · rintro (ha | ha) (hb | hb) <;>
      simp [API_BASE_URL, ha, hb, Except.bind, JSVal.str, JSVal.undefined, JSVal.truthy,
        JSPrim.truthy, fallbackBaseURL]
  · intro h
    obtain ⟨a, ha⟩ := buildTimeVar_ok env
    simp only [API_BASE_URL, ha, Except.bind] at h
    by_cases hta : a.truthy = true
    · simp only [hta, if_true, Except.ok.injEq] at h
      exact truthy_ne_empty a hta h
    · simp only [hta, Bool.false_eq_true, if_false] at h
      cases hb : runtimeVar env with
      | error e => simp [hb] at h
      | ok b =>
        simp only [hb] at h
        by_cases htb : b.truthy = true
        · simp only [htb, if_true, Except.ok.injEq] at h
          exact truthy_ne_empty b htb h
        · simp only [htb, Bool.false_eq_true, if_false, Except.ok.injEq] at h
          simp [JSVal.str, fallbackBaseURL] at h

/-- Witness of `empty_string_counts_as_unset`: both variables set to the empty
string, and the build-time one empty with the runtime one unset. -/
theorem empty_string_counts_as_unset_witness :
    API_BASE_URL (envWith (.str "") (.str "")) = .ok (.str "http://127.0.0.1:8000/api") ∧
    API_BASE_URL (envWith (.str "") .undefined) = .ok (.str "http://127.0.0.1:8000/api") ∧
    API_BASE_URL (envWith (.str "") (.str "https://b.example"))
      = (runtimeVar (envWith (.str "") (.str "https://b.example"))).bind fun b =>
        if b.truthy then .ok b else .ok (.str fallbackBaseURL) :=
  ⟨(empty_string_counts_as_unset _).2.1 (Or.inl rfl) (Or.inl rfl),
   (empty_string_counts_as_unset _).2.1 (Or.inl rfl) (Or.inr rfl),
   (empty_string_counts_as_unset _).1 (Or.inl rfl)⟩

/-! ## C4, C5: the bodies of the OTP requests -/

/-- C4: for every value `p`, `requestOtp p` hands the transport a POST request
to /client/auth/request-otp/ whose body is the object with the single field
`phone_number`, equal to `p`; for "254700000000" the body is the object with
`phone_number` equal to "254700000000". -/
theorem requestOtp_request {τ : Type} (inst : AxiosInstance τ) (p : JSVal) :
    requestOtp inst p
      = inst.request { method := .POST, url := "/client/auth/request-otp/",
                       data := some (.obj [("phone_number", p)]), config := none } ∧
    (requestOtp (capture inst.defaults) (.str "254700000000")).data
      = some (.obj [("phone_number", .str "254700000000")]) :=
  ⟨rfl, rfl⟩

/-- C5: for every `p` and `o`, `verifyOtp p o` hands the transport a POST
request to /client/auth/verify-otp/ whose body is the object with exactly the
fields `phone_number`, equal to `p`, and `otp`, equal to `o`, in that order and
not swapped. -/
theorem verifyOtp_request {τ : Type} (inst : AxiosInstance τ) (p o : JSVal) :
    verifyOtp inst p o
      = inst.request { method := .POST, url := "/client/auth/verify-otp/",
                       data := some (.obj [("phone_number", p), ("otp", o)]), config := none } ∧
    (verifyOtp (capture inst.defaults) (.str "254700000000") (.str "123456")).data
      = some (.obj [("phone_number", .str "254700000000"), ("otp", .str "123456")]) :=
  ⟨rfl, rfl⟩

/-! ## C6: payloads are forwarded as they are -/

/-- C6: the body of the request built by `applyLoan token payload` and by
`triggerStkPush payload` is the payload itself, for every payload, and for
`applyLoan` the same whatever the token. -/
theorem payload_forwarded (d : AxiosDefaults) (token token2 : JSPrim) (payload : JSVal) :
    (applyLoan (capture d) token payload).data = some payload ∧
    (triggerStkPush (capture d) payload).data = some payload ∧
    (applyLoan (capture d) token payload).data = (applyLoan (capture d) token2 payload).data :=
  ⟨rfl, rfl, rfl⟩

/-! ## C7: the transport's outcome is returned as it is -/

/-- C7: over a transport given as a function from a request to a success or
an error, each endpoint function returns the transport's outcome for the
request it builds, error or success alike, and the log of requests handed to
the transport grows by exactly that one request. -/
theorem outcome_passed_through {ε ρ : Type} (d : AxiosDefaults) (t : Request → Except ε ρ)
    (token : JSPrim) (p o payload : JSVal) (log : List Request) :
    requestOtp (logging d t) p log
      = (t (requestOtp (capture d) p), log ++ [requestOtp (capture d) p]) ∧
    verifyOtp (logging d t) p o log
      = (t (verifyOtp (capture d) p o), log ++ [verifyOtp (capture d) p o]) ∧
    applyLoan (logging d t) token payload log
      = (t (applyLoan (capture d) token payload),
         log ++ [applyLoan (capture d) token payload]) ∧
    getLoanSummary (logging d t) token log
      = (t (getLoanSummary (capture d) token), log ++ [getLoanSummary (capture d) token]) ∧
    getPaymentHistory (logging d t) token log
      = (t (getPaymentHistory (capture d) token),
         log ++ [getPaymentHistory (capture d) token]) ∧
    triggerStkPush (logging d t) payload log
      = (t (triggerStkPush (capture d) payload), log ++ [triggerStkPush (capture d) payload]) :=
  ⟨rfl, rfl, rfl, rfl, rfl, rfl⟩

/-! ## C8: the endpoints without authentication -/

/-- C8: the requests built by `requestOtp`, `verifyOtp` and `triggerStkPush`
carry no per-request configuration, hence no per-request header and no
Authorization header, for every input. -/
theorem no_headers_on_public_endpoints (d : AxiosDefaults) (p o payload : JSVal) :
    ((requestOtp (capture d) p).config = none ∧
      (verifyOtp (capture d) p o).config = none ∧
      (triggerStkPush (capture d) payload).config = none) ∧
    ((requestOtp (capture d) p).headers = [] ∧
      (verifyOtp (capture d) p o).headers = [] ∧
      (triggerStkPush (capture d) payload).headers = []) ∧
    ((requestOtp (capture d) p).authorization = none ∧
      (verifyOtp (capture d) p o).authorization = none ∧
      (triggerStkPush (capture d) payload).authorization = none) :=
  ⟨⟨rfl, rfl, rfl⟩, ⟨rfl, rfl, rfl⟩, ⟨rfl, rfl, rfl⟩⟩

end ApiClient
